import Mathlib

/-!
Shallow embedding of the tool-dispatch and browser-session-lifecycle layer of
the browser-automation MCP server in this repository (src/server.py,
src/browser.py, src/actions.py, src/utils.py).

Delegated browser-engine operations (Playwright calls) are external to the
repository and are modelled as oracle environments supplied to each embedded
function; the Python dicts returned by the action layer are modelled as
structures whose optional keys become `Option` fields.  Python exceptions that
escape a function are modelled with `Except`.
-/

deriving instance DecidableEq for Except

namespace BrowserMCP

/-- Python exceptions that cross function boundaries in this code base:
`ValueError` and `RuntimeError` (src/actions.py, src/browser.py).  `str(e)`
is the carried message. -/
inductive PyError
  | valueError (msg : String)
  | runtimeError (msg : String)
deriving DecidableEq, Repr

/-- Python `str(e)` on the exceptions above. -/
def pyErrorMsg : PyError → String
  | .valueError m => m
  | .runtimeError m => m

/-! ## src/utils.py -/

/-- One entry of the `content` list of the MCP error envelope built by
`format_error_response` (src/utils.py lines 187-195). -/
structure ContentItem where
  type : String
  text : String
deriving DecidableEq, Repr

/-- The error envelope dict returned by `format_error_response`
(src/utils.py lines 187-195): `{content: [...], isError: True}`. -/
structure ErrorResponse where
  content : List ContentItem
  isError : Bool
deriving DecidableEq, Repr

/-- The message formatting of `format_error_response(error_message,
tool_name, arguments)` (src/utils.py lines 180-184).  `tool_name` defaults
to `None`; the Python truthiness test `if tool_name:` is false both for
`None` and for the empty string, in which case the text is the bare message
without the `Error in tool ...` prefix.  (`arguments` is accepted but unused
by the source function, so it is omitted here.) -/
def format_error_text (error_message : String) (tool_name : Option String) : String :=
  match tool_name with
  | some n =>
    if n = "" then error_message
    else "Error in tool \x27" ++ n ++ "\x27: " ++ error_message
  | none => error_message

/-- The dict built by `format_error_response` (src/utils.py lines
187-195) around the formatted message. -/
def format_error_response (error_message : String) (tool_name : Option String) : ErrorResponse :=
  { content := [{ type := "text", text := format_error_text error_message tool_name }],
    isError := true }

/-- The characters Python `urllib.parse` accepts inside a URL scheme after the
leading letter: letters, digits, `+`, `-`, `.`. -/
def scheme_chars (c : Char) : Bool :=
  c.isAlpha || c.isDigit || c = '+' || c = '-' || c = '.'

/-- Split a character list at the first occurrence of `sep`, returning the
parts before and after it, or `none` when `sep` does not occur.  Models
Python `find`/`partition`. -/
def splitAtChar (sep : Char) : List Char → Option (List Char × List Char)
  | [] => none
  | c :: rest =>
    if c = sep then some ([], rest)
    else
      match splitAtChar sep rest with
      | some (pre, post) => some (c :: pre, post)
      | none => none

/-- Split a character list on every occurrence of `sep`, like Python
`str.split(sep)`: the empty list yields one empty field, and separators at
the ends yield empty fields. -/
def splitOnChar (sep : Char) : List Char → List (List Char)
  | [] => [[]]
  | c :: rest =>
    let r := splitOnChar sep rest
    if c = sep then [] :: r
    else
      match r with
      | [] => [[c]]
      | h :: t => (c :: h) :: t

/-- The whitespace set of Python `str.strip()` (`str.isspace`):
U+0009..U+000D, U+001C..U+001F, space, U+0085, U+00A0, U+1680,
U+2000..U+200A, U+2028, U+2029, U+202F, U+205F, U+3000. -/
def pythonIsSpace (c : Char) : Bool :=
  let n := c.toNat
  (9 ≤ n && n ≤ 13) || (28 ≤ n && n ≤ 31) || n = 32 || n = 133 || n = 160
    || n = 5760 || (8192 ≤ n && n ≤ 8202) || n = 8232 || n = 8233 || n = 8239
    || n = 8287 || n = 12288

/-- Python `url.strip()`: remove leading and trailing Python whitespace. -/
def stripChars (cs : List Char) : List Char :=
  ((cs.dropWhile pythonIsSpace).reverse.dropWhile pythonIsSpace).reverse

/-- The WHATWG C0-control-or-space set that `urlsplit` lstrips from the url:
code points 0 through 32. -/
def c0ControlOrSpace (c : Char) : Bool :=
  c.toNat ≤ 32

/-- The input cleaning at the top of `urlsplit`: lstrip C0 controls and
spaces, then remove every tab, CR and LF anywhere in the url. -/
def urlsplitClean (cs : List Char) : List Char :=
  (cs.dropWhile c0ControlOrSpace).filter fun c => !(c = '\t' || c = '\n' || c = '\r')

/-- ASCII hexadecimal digit (the `_HEX_DIGITS` set of Python `ipaddress`). -/
def isHexDigit (c : Char) : Bool :=
  c.isDigit || ('a' ≤ c && c ≤ 'f') || ('A' ≤ c && c ≤ 'F')

/-- Decimal value of an ASCII digit string. -/
def digitsVal (s : List Char) : Nat :=
  s.foldl (fun a c => 10 * a + (c.toNat - 48)) 0

/-- `IPv4Address._parse_octet` of Python `ipaddress`: 1-3 ASCII decimal
digits, no leading zero (except "0" itself), value at most 255. -/
def pythonIPv4Octet (s : List Char) : Bool :=
  !s.isEmpty && s.all Char.isDigit && decide (s.length ≤ 3)
    && (s = ['0'] || !(s.headD '0' = '0'))
    && decide (digitsVal s ≤ 255)

/-- `IPv4Address._ip_int_from_string` validity: exactly four dot-separated
valid octets. -/
def pythonIPv4 (s : List Char) : Bool :=
  let octs := splitOnChar '.' s
  octs.length = 4 && octs.all pythonIPv4Octet

/-- `IPv6Address._parse_hextet` validity: 1-4 hexadecimal digits. -/
def pythonHextet (s : List Char) : Bool :=
  !s.isEmpty && s.all isHexDigit && decide (s.length ≤ 4)

/-- The IPv4-suffix step of `IPv6Address._ip_int_from_string`: when the last
colon-separated part contains a dot it must be a valid IPv4 address and is
replaced by two hextets; an invalid suffix raises. -/
def ipv4SuffixExpand (parts : List (List Char)) : Option (List (List Char)) :=
  match parts.getLast? with
  | none => none
  | some lastP =>
    if lastP.contains '.' then
      if pythonIPv4 lastP then some (parts.dropLast ++ [['0'], ['0']])
      else none
    else some parts

/-- The colon-structure check of `IPv6Address._ip_int_from_string` after the
IPv4-suffix step: at most 9 parts; without a `::` skip exactly 8 non-empty
hextets; with one interior empty part (the `::`), an empty first or last
part is legal only adjacent to the skip, the skip must stand for at least
one group (at most 7 explicit groups), and the parts on both sides of the
skip must be valid hextets. -/
def ipv6PartsValid (parts : List (List Char)) : Bool :=
  let n := parts.length
  if decide (9 < n) then false
  else
    match (List.range n).filter (fun i => decide (0 < i) && decide (i < n - 1)
        && (parts.getD i []).isEmpty) with
    | [] =>
      decide (n = 8) && !(parts.getD 0 []).isEmpty && !(parts.getD (n - 1) []).isEmpty
        && parts.all pythonHextet
    | [i] =>
      let firstEmpty := (parts.getD 0 []).isEmpty
      let lastEmpty := (parts.getD (n - 1) []).isEmpty
      let hi := if firstEmpty then 0 else i
      let lo := if lastEmpty then 0 else n - i - 1
      (if firstEmpty then decide (i = 1) else true)
        && (if lastEmpty then decide (i = n - 2) else true)
        && decide (hi + lo ≤ 7)
        && (parts.take hi).all pythonHextet
        && (parts.drop (n - lo)).all pythonHextet
    | _ => false

/-- `IPv6Address._ip_int_from_string` validity: non-empty, at least three
colon-separated parts, valid optional IPv4 suffix, and a valid colon
structure. -/
def ipv6AddrValid (s : List Char) : Bool :=
  if s.isEmpty then false
  else
    let parts0 := splitOnChar ':' s
    if decide (parts0.length < 3) then false
    else
      match ipv4SuffixExpand parts0 with
      | none => false
      | some parts => ipv6PartsValid parts

/-- `IPv6Address` textual validity including the optional `%scope` suffix
(`_split_scope_id`): at most one percent sign, with a non-empty scope id
after it. -/
def ipv6WithScopeValid (s : List Char) : Bool :=
  match splitAtChar '%' s with
  | none => ipv6AddrValid s
  | some (addr, scope) => !scope.isEmpty && !scope.contains '%' && ipv6AddrValid addr

/-- The IPvFuture shape accepted by `_check_bracketed_host`: the regex
`v[a-fA-F0-9]+\..+` anchored at both ends (the url has no CR/LF left, so
the dot-any matches every remaining character). -/
def ipvFutureValid (s : List Char) : Bool :=
  match s with
  | 'v' :: rest =>
    let hexRun := rest.takeWhile isHexDigit
    !hexRun.isEmpty
      && (match rest.drop hexRun.length with
          | '.' :: tail => !tail.isEmpty
          | _ => false)
  | _ => false

/-- `_check_bracketed_host` of `urllib.parse` (CPython 3.11+): a bracketed
host starting with `v` must match the IPvFuture shape; any other bracketed
host must be a valid IPv6 address (a bracketed IPv4 address, or anything
else, raises `ValueError`). -/
def check_bracketed_host (host : List Char) : Bool :=
  match host with
  | 'v' :: _ => ipvFutureValid host
  | _ => if pythonIPv4 host then false else ipv6WithScopeValid host

/-- The bracketed-host extraction of `urlsplit` (partition at the opening
bracket, then at the closing bracket): the text between the first opening
bracket and the next closing bracket (to the end when no closing bracket
follows; empty when there is no opening bracket). -/
def bracketedHostOf (netloc : List Char) : List Char :=
  match splitAtChar '[' netloc with
  | some (_, after) =>
    (match splitAtChar ']' after with
     | some (host, _) => host
     | none => after)
  | none => []

/-- The code points whose NFKC compatibility decomposition contains one of
the characters `/?#@:` guarded by `_checknetloc` (Unicode 15 data):
U+2047..U+2049, U+2100, U+2101, U+2105, U+2106, U+2A74, U+FE13, U+FE16,
U+FE55, U+FE56, U+FE5F, U+FE6B, U+FF03, U+FF0F, U+FF1A, U+FF1F, U+FF20. -/
def nfkcForbidden (c : Char) : Bool :=
  let n := c.toNat
  n = 0x2047 || n = 0x2048 || n = 0x2049 || n = 0x2100 || n = 0x2101
    || n = 0x2105 || n = 0x2106 || n = 0x2A74 || n = 0xFE13 || n = 0xFE16
    || n = 0xFE55 || n = 0xFE56 || n = 0xFE5F || n = 0xFE6B || n = 0xFF03
    || n = 0xFF0F || n = 0xFF1A || n = 0xFF1F || n = 0xFF20

/-- `_checknetloc` of `urllib.parse`: ASCII netlocs always pass; a netloc
containing a character whose NFKC normalization introduces one of `/?#@:`
(the table above; the literal `@`, `:` already present are removed before
normalizing, and `/?#` cannot occur in a netloc) raises `ValueError`. -/
def checknetloc_raises (netloc : List Char) : Bool :=
  netloc.any nfkcForbidden

/-- The fragment of Python `urllib.parse.urlparse` that `is_valid_url` uses:
the `(scheme, netloc)` pair, or `none` when `urlsplit` raises `ValueError`.
After the input cleaning (`urlsplitClean`), a scheme is recognised only when
the text before the first colon is an ASCII letter followed by scheme
characters (lower-casing it); `netloc` is the text after a leading `//` up
to the first `/`, `?` or `#`.  `ValueError` is raised for a netloc with an
unbalanced bracket (Invalid IPv6 URL), for a bracketed host that fails
`_check_bracketed_host` (CPython 3.11+), and by the `_checknetloc` NFKC
guard. -/
def urlparse_scheme_netloc (url : String) : Option (String × String) :=
  let cs := urlsplitClean url.toList
  let p :=
    match splitAtChar ':' cs with
    | some (pre, post) =>
      (match pre with
       | [] => ("", cs)
       | c0 :: crest =>
         if c0.isAlpha && crest.all scheme_chars then (String.mk (pre.map Char.toLower), post)
         else ("", cs))
    | none => ("", cs)
  match p.2 with
  | '/' :: '/' :: r =>
    let netloc := r.takeWhile fun c => !(c = '/' || c = '?' || c = '#')
    if (netloc.contains '[' && !netloc.contains ']')
        || (netloc.contains ']' && !netloc.contains '[') then none
    else if netloc.contains '[' && !check_bracketed_host (bracketedHostOf netloc) then none
    else if checknetloc_raises netloc then none
    else some (p.1, String.mk netloc)
  | _ =>
    if checknetloc_raises [] then none else some (p.1, "")

/-- `is_valid_url(url)` (src/utils.py lines 36-58): false for the empty
string (`not url`); otherwise parse the stripped string inside
`try/except` — any `ValueError` escaping `urlparse` makes the function
return false — and require scheme in {http, https, ftp, ftps}, a non-empty
netloc, and either a dot in the netloc or netloc equal to "localhost". -/
def is_valid_url (url : String) : Bool :=
  if url = "" then false
  else
    match urlparse_scheme_netloc (String.mk (stripChars url.toList)) with
    | none => false
    | some p =>
      (p.1 = "http" || p.1 = "https" || p.1 = "ftp" || p.1 = "ftps")
        && !(p.2 = "")
        && (p.2.toList.contains '.' || p.2 = "localhost")

/-- Modelled from the wording of the spec for claim C5, to be compared with
`is_valid_url` from the source: the scheme must be one of
{http, https, ftp, ftps} and the (stripped, parsed) url must have a
non-empty host that contains a dot or equals "localhost"; a url on which the
parse fails has no scheme or host and is not accepted. -/
def urlSpecAccepts (url : String) : Bool :=
  match urlparse_scheme_netloc (String.mk (stripChars url.toList)) with
  | none => false
  | some p =>
    (p.1 = "http" || p.1 = "https" || p.1 = "ftp" || p.1 = "ftps")
      && !(p.2 = "")
      && (p.2.toList.contains '.' || p.2 = "localhost")

/-! ## src/browser.py : BrowserManager -/

/-- The four owned handles of `BrowserManager` (src/browser.py lines 52-55):
`playwright`, `browser`, `context`, `page`; `true` means the handle is set
(not `None`). -/
structure BMState where
  playwright : Bool
  browser : Bool
  context : Bool
  page : Bool
deriving DecidableEq, Repr

/-- Oracle for the delegated engine launch in `BrowserManager.start`:
whether the playwright/browser/context/page creation sequence succeeds. -/
structure StartEnv where
  launchOk : Bool
deriving DecidableEq, Repr

namespace BrowserManager

/-- `BrowserManager.start` (src/browser.py lines 74-126): raises
`RuntimeError("Browser is already running")` when `self.playwright` is
already set; otherwise performs the delegated launch sequence, setting all
four handles on success.  On a delegated failure the code runs
`self.cleanup()` on the partial state and raises
`RuntimeError("Browser startup failed: ...")`. -/
def start (env : StartEnv) (s : BMState) : Except PyError BMState :=
  if s.playwright then .error (.runtimeError "Browser is already running")
  else if env.launchOk then .ok ⟨true, true, true, true⟩
  else .error (.runtimeError "Browser startup failed")

/-- The four teardown steps of `BrowserManager.cleanup`
(src/browser.py lines 286-301), in source order. -/
inductive Step
  | closePage
  | closeContext
  | closeBrowser
  | stopPlaywright
deriving DecidableEq, Repr

/-- Which delegated close/stop calls raise during cleanup. -/
structure CleanupEnv where
  pageCloseFails : Bool
  contextCloseFails : Bool
  browserCloseFails : Bool
  playwrightStopFails : Bool
deriving DecidableEq, Repr

/-- State of the straight-line execution inside the single
`try ... except` block of `cleanup`: current handles, the delegated calls attempted so
far, and whether an exception has been raised (which jumps to the `except`
handler, skipping the remaining statements). -/
structure CleanupRun where
  st : BMState
  trace : List Step
  raised : Bool

/-- One `if self.<handle>: await <close>; self.<handle> = None` block of
`cleanup`.  If an exception was already raised nothing more executes; if the
handle is absent the block is skipped; if the delegated close raises, the
handle is left set (the `None` assignment is after the close) and the
exception aborts the rest of the `try` block. -/
def doStep (get : BMState → Bool) (clear : BMState → BMState) (fails : Bool)
    (stp : Step) (r : CleanupRun) : CleanupRun :=
  if r.raised then r
  else if get r.st then
    if fails then { r with trace := r.trace ++ [stp], raised := true }
    else { st := clear r.st, trace := r.trace ++ [stp], raised := false }
  else r

/-- `BrowserManager.cleanup` (src/browser.py lines 277-306): one `try` block
closing page, then context, then browser, then stopping playwright, with a
single `except Exception` that logs and swallows.  Returns the resulting
handle state and the list of delegated calls attempted. -/
def cleanup (env : CleanupEnv) (s : BMState) : BMState × List Step :=
  let r0 : CleanupRun := ⟨s, [], false⟩
  let r1 := doStep (fun t => t.page) (fun t => { t with page := false })
    env.pageCloseFails .closePage r0
  let r2 := doStep (fun t => t.context) (fun t => { t with context := false })
    env.contextCloseFails .closeContext r1
  let r3 := doStep (fun t => t.browser) (fun t => { t with browser := false })
    env.browserCloseFails .closeBrowser r2
  let r4 := doStep (fun t => t.playwright) (fun t => { t with playwright := false })
    env.playwrightStopFails .stopPlaywright r3
  (r4.st, r4.trace)

end BrowserManager

/-! ## src/actions.py : navigate_to -/

/-- Outcome of the delegated `page.goto(url, timeout=...)` call in
`navigate_to` (src/actions.py line 86): a response object (final url, title,
HTTP status), a `None` response, a `PlaywrightTimeoutError`, or any other
exception. -/
inductive GotoOutcome
  | ok (finalUrl : String) (title : String) (status : Nat)
  | noResponse
  | timedOut (msg : String)
  | failed (msg : String)
deriving DecidableEq, Repr

/-- Outcome of the delegated `page.wait_for_selector` call
(src/actions.py line 94). -/
inductive WaitOutcome
  | ok
  | timedOut (msg : String)
  | failed (msg : String)
deriving DecidableEq, Repr

/-- Oracle for the delegated operations of `navigate_to`:
`get_current_page` (which raises `RuntimeError` when the browser is not
started), `page.goto`, and `page.wait_for_selector`. -/
structure NavEnv where
  getPage : Except String Unit
  goto : String → GotoOutcome
  waitFor : String → WaitOutcome

/-- The success payload dict of `navigate_to` (src/actions.py lines
101-111). -/
structure NavPayload where
  success : Bool
  url : String
  title : String
  status_code : Nat
  loaded : Bool
  waited_for : Option String
deriving DecidableEq, Repr

/-- The delegated browser interactions performed by `navigate_to`, in
execution order. -/
inductive BrowserOp
  | getPage
  | goto (url : String)
  | waitForSelector (sel : String)
deriving DecidableEq, Repr

/-- `BrowserActions.navigate_to` (src/actions.py lines 60-124).  An invalid
URL raises `ValueError` before any browser interaction.  Inside the `try`
block: the page is acquired, `goto` runs, a `None` response raises
`RuntimeError("Failed to get response for URL: ...")` (re-wrapped by the
generic handler below), then the optional selector wait runs.
`PlaywrightTimeoutError` is re-raised as
`RuntimeError(f"Navigation timeout after {timeout}s: ...")` and every other
exception as `RuntimeError(f"Navigation failed: ...")` — the action
propagates them; it does not return a failure payload.  The second component
is the list of delegated interactions attempted. -/
def navigate_to (env : NavEnv) (url : String) (wait_for : Option String) (timeout : Nat) :
    Except PyError NavPayload × List BrowserOp :=
  if is_valid_url url = false then
    (.error (.valueError ("Invalid URL provided: " ++ url)), [])
  else
    match env.getPage with
    | .error e => (.error (.runtimeError ("Navigation failed: " ++ e)), [.getPage])
    | .ok _ =>
      match env.goto url with
      | .timedOut m =>
        (.error (.runtimeError ("Navigation timeout after " ++ toString timeout ++ "s: " ++ m)),
         [.getPage, .goto url])
      | .failed m =>
        (.error (.runtimeError ("Navigation failed: " ++ m)), [.getPage, .goto url])
      | .noResponse =>
        (.error (.runtimeError ("Navigation failed: Failed to get response for URL: " ++ url)),
         [.getPage, .goto url])
      | .ok finalUrl title status =>
        match wait_for with
        | none => (.ok ⟨true, finalUrl, title, status, true, none⟩, [.getPage, .goto url])
        | some sel =>
          match env.waitFor sel with
          | .timedOut m =>
            (.error (.runtimeError ("Navigation timeout after " ++ toString timeout ++ "s: " ++ m)),
             [.getPage, .goto url, .waitForSelector sel])
          | .failed m =>
            (.error (.runtimeError ("Navigation failed: " ++ m)),
             [.getPage, .goto url, .waitForSelector sel])
          | .ok =>
            (.ok ⟨true, finalUrl, title, status, true, some sel⟩,
             [.getPage, .goto url, .waitForSelector sel])

/-! ## src/actions.py : fill_form -/

/-- Behaviour of the selector of one form field on the current page, covering the
exit points of the per-field `try` block (src/actions.py lines 302-330):
the field is found and fillable; `wait_for_selector` raises (selector never
appears within 5s); the wait succeeds but `query_selector` returns `None`;
`element.clear()` raises; or `element.fill()` raises. -/
inductive FieldBehavior
  | fillable
  | waitTimedOut (msg : String)
  | foundNone
  | clearError (msg : String)
  | fillError (msg : String)
deriving DecidableEq, Repr

/-- Oracle for the delegated operations of `fill_form`: page acquisition,
per-selector field behaviour, and the submission step (`submitControl` is
the first selector of the fixed probe list that matches a control on the
page; `submitActionOk` says whether the delegated click / Enter press
succeeds, `submitErrMsg` is `str` of the exception when it does not;
`url` is `page.url`). -/
structure FormEnv where
  getPage : Except String Unit
  field : String → FieldBehavior
  submitControl : Option String
  submitActionOk : Bool
  submitErrMsg : String
  url : String

/-- An entry of the `filled_fields` list (src/actions.py lines 318-321). -/
structure FieldFill where
  selector : String
  value : String
deriving DecidableEq, Repr

/-- An entry of the `failed_fields` list (src/actions.py lines 307-311 and
326-329). -/
structure FieldFail where
  selector : String
  error : String
deriving DecidableEq, Repr

/-- The result dict built by `fill_form` (src/actions.py lines 332-338),
with the keys added by the optional submission step (lines 368-377) as
`Option` fields (absent key = `none`). -/
structure FillResult where
  success : Bool
  filled_count : Nat
  failed_count : Nat
  filled_fields : List FieldFill
  failed_fields : List FieldFail
  submitted : Option Bool
  final_url : Option String
  submit_error : Option String
deriving DecidableEq, Repr

/-- `fill_form` either returns its result dict or, when an exception escapes
the per-field machinery (page acquisition failure), the dict built by the
outer handler, holding success False and a Form-filling-failed message
(src/actions.py lines 382-388). -/
inductive FillOutcome
  | result (r : FillResult)
  | failure (msg : String)
deriving DecidableEq, Repr

/-- The delegated page operations performed by `fill_form`, in execution
order. -/
inductive FormOp
  | waitSel (sel : String)
  | clearField (sel : String)
  | fillField (sel : String) (value : String)
  | clickSubmit (sel : String)
  | pressEnter (sel : String)
deriving DecidableEq, Repr

/-- The failure message recorded for a field, per behaviour: `str` of the
wait/clear/fill exception, or the literal "Element not found" when
`query_selector` returns `None` (src/actions.py line 310).  `none` means the
field is filled successfully. -/
def fieldFailure : FieldBehavior → Option String
  | .fillable => none
  | .waitTimedOut m => some m
  | .foundNone => some "Element not found"
  | .clearError m => some m
  | .fillError m => some m

/-- The delegated operations attempted for one field, per behaviour: the
wait always runs; clear runs once the element is found; fill runs after a
successful clear (src/actions.py lines 304-316). -/
def fieldTrace : FieldBehavior → String → String → List FormOp
  | .fillable, sel, v => [.waitSel sel, .clearField sel, .fillField sel v]
  | .waitTimedOut _, sel, _ => [.waitSel sel]
  | .foundNone, sel, _ => [.waitSel sel]
  | .clearError _, sel, _ => [.waitSel sel, .clearField sel]
  | .fillError _, sel, v => [.waitSel sel, .clearField sel, .fillField sel v]

/-- The per-field loop of `fill_form` (src/actions.py lines 302-330): each
field has its own `try/except`, so a failure of one field never aborts the
rest.  Returns (filled entries, failed entries, delegated operations), each
in field order. -/
def fillLoop (env : FormEnv) : List (String × String) →
    List FieldFill × List FieldFail × List FormOp
  | [] => ([], [], [])
  | (sel, v) :: rest =>
    let r := fillLoop env rest
    match fieldFailure (env.field sel) with
    | none => (⟨sel, v⟩ :: r.1, r.2.1, fieldTrace (env.field sel) sel v ++ r.2.2)
    | some m => (r.1, ⟨sel, m⟩ :: r.2.1, fieldTrace (env.field sel) sel v ++ r.2.2)

/-- `BrowserActions.fill_form` (src/actions.py lines 282-388).  After the
per-field loop, the result dict is built with
`success = len(filled_fields) > 0` and the two counts; submission runs only
when `submit` is requested and at least one field was filled: a probe over a
fixed list of submit-control selectors is clicked when one matches,
otherwise Enter is pressed on the last successfully filled field; on
success the `submitted` and `final_url` keys are added, and when the
delegated click/press raises only `submit_error` is added. -/
def fill_form (env : FormEnv) (fields : List (String × String)) (submit : Bool) :
    FillOutcome × List FormOp :=
  match env.getPage with
  | .error e => (.failure ("Form filling failed: " ++ e), [])
  | .ok _ =>
    let L := fillLoop env fields
    let base : FillResult :=
      { success := decide (0 < L.1.length), filled_count := L.1.length,
        failed_count := L.2.1.length, filled_fields := L.1, failed_fields := L.2.1,
        submitted := none, final_url := none, submit_error := none }
    if submit && !L.1.isEmpty then
      match env.submitControl with
      | some bsel =>
        if env.submitActionOk then
          (.result { base with submitted := some true, final_url := some env.url },
           L.2.2 ++ [.clickSubmit bsel])
        else
          (.result { base with submit_error := some env.submitErrMsg },
           L.2.2 ++ [.clickSubmit bsel])
      | none =>
        let lastSel := ((L.1.getLast?).map FieldFill.selector).getD ""
        if env.submitActionOk then
          (.result { base with submitted := some true, final_url := some env.url },
           L.2.2 ++ [.pressEnter lastSel])
        else
          (.result { base with submit_error := some env.submitErrMsg },
           L.2.2 ++ [.pressEnter lastSel])
    else
      (.result base, L.2.2)

/-! ## src/actions.py : take_screenshot -/

/-- Oracle for the delegated operations of `take_screenshot`: whether
`query_selector` finds the element, the bytes (abstracted as a string)
produced by `element.screenshot` / `page.screenshot` or the exception they
raise, and `page.url`. -/
structure ShotEnv where
  querySel : String → Bool
  elementShot : String → Except String String
  pageShot : Bool → Except String String
  url : String

/-- The result dict of `take_screenshot` (src/actions.py lines 427-450),
with absent keys as `none`.  The success payload carries the base64 data in
`screenshot`; the failure payload carries only `error` and the echoed
`selector`. -/
structure ShotResult where
  success : Bool
  screenshot : Option String
  format : Option String
  type : Option String
  url : Option String
  selector : Option String
  error : Option String
deriving DecidableEq, Repr

/-- `BrowserActions.take_screenshot` (src/actions.py lines 390-450).  When a
selector is given the element branch runs (regardless of `full_page`); a
missing element raises `RuntimeError("Element not found for screenshot:
...), which the in-action handler converts into a failure dict holding
success False, a Screenshot-failed message, and the echoed selector.
Without a selector the page is captured with `full_page` deciding the
capture kind.  Page acquisition is modelled as succeeding (its failure takes
the same `except` path). -/
def take_screenshot (env : ShotEnv) (full_page : Bool) (selector : Option String) : ShotResult :=
  match selector with
  | some s =>
    if env.querySel s then
      match env.elementShot s with
      | .ok bytes =>
        { success := true, screenshot := some bytes, format := some "png",
          type := some "element", url := some env.url, selector := some s, error := none }
      | .error m =>
        { success := false, screenshot := none, format := none, type := none,
          url := none, selector := some s, error := some ("Screenshot failed: " ++ m) }
    else
      { success := false, screenshot := none, format := none, type := none,
        url := none, selector := some s,
        error := some ("Screenshot failed: Element not found for screenshot: " ++ s) }
  | none =>
    match env.pageShot full_page with
    | .ok bytes =>
      { success := true, screenshot := some bytes, format := some "png",
        type := some (if full_page then "full_page" else "viewport"),
        url := some env.url, selector := none, error := none }
    | .error m =>
      { success := false, screenshot := none, format := none, type := none,
        url := none, selector := none, error := some ("Screenshot failed: " ++ m) }

/-! ## src/server.py : registry and dispatch -/

/-- One static tool descriptor returned by `handle_list_tools`
(src/server.py lines 54-182): name, description, and the `required`
parameter list of its input schema. -/
structure ToolDescriptor where
  name : String
  description : String
  required : List String
deriving DecidableEq, Repr

/-- `handle_list_tools` (src/server.py lines 54-182): the static list of the
six tool descriptors. -/
def handle_list_tools : List ToolDescriptor :=
  [ ⟨"navigate_to", "Navigate to a specified URL in the browser", ["url"]⟩,
    ⟨"get_page_content", "Extract text content from the current page", []⟩,
    ⟨"click_element", "Click on an element specified by CSS selector", ["selector"]⟩,
    ⟨"fill_form", "Fill form fields with specified data", ["fields"]⟩,
    ⟨"take_screenshot", "Take a screenshot of the current page", []⟩,
    ⟨"execute_javascript", "Execute JavaScript code in the browser context", ["code"]⟩ ]

/-- The six dispatch routes of the `if/elif` chain of `handle_call_tool`
(src/server.py lines 205-240). -/
inductive ToolRoute
  | navigateTo
  | getPageContent
  | clickElement
  | fillForm
  | takeScreenshot
  | executeJavascript
deriving DecidableEq, Repr

/-- The `if/elif` routing of `handle_call_tool` (src/server.py lines
205-243): the route matching the tool name, or `none`, in which case the
source raises `ValueError(f"Unknown tool: {name}")`. -/
def routeFor (name : String) : Option ToolRoute :=
  if name = "navigate_to" then some .navigateTo
  else if name = "get_page_content" then some .getPageContent
  else if name = "click_element" then some .clickElement
  else if name = "fill_form" then some .fillForm
  else if name = "take_screenshot" then some .takeScreenshot
  else if name = "execute_javascript" then some .executeJavascript
  else none

/-- The two module-level globals of src/server.py (lines 50-51):
`browser_manager` and `browser_actions` (the latter modelled as a presence
flag, since `BrowserActions` only wraps the manager). -/
structure ServerState where
  browser_manager : Option BMState
  browser_actions : Bool
deriving DecidableEq, Repr

/-- `initialize_browser` (src/server.py lines 254-268, source name
`initialize_browser`): unconditionally creates a fresh `BrowserManager` and
awaits `start()` on it, then creates the actions wrapper.  Returns the new
globals, the number of engine-launch sequences performed (always one), and
the exception propagated when `start` raises (in which case the actions
wrapper is never created). -/
def init_browser (env : StartEnv) : ServerState × Nat × Option PyError :=
  match BrowserManager.start env ⟨false, false, false, false⟩ with
  | .ok m => (⟨some m, true⟩, 1, none)
  | .error e => (⟨some ⟨false, false, false, false⟩, false⟩, 1, some e)

/-- The lazy-initialization guard at the top of `handle_call_tool`
(src/server.py lines 200-202): `if browser_manager is None or
browser_actions is None: await initialize_browser()`. -/
def ensure_started (env : StartEnv) (s : ServerState) : ServerState × Nat × Option PyError :=
  if s.browser_manager = none ∨ s.browser_actions = false then init_browser env
  else (s, 0, none)

/-- The outcome of one `tools/call`: either the serialized success payload of
the routed action, or the error envelope built by the `except` handler
(src/server.py lines 244-251). -/
inductive DispatchOutcome
  | success (payload : String)
  | errorEnvelope (e : ErrorResponse)
deriving DecidableEq, Repr

/-- `handle_call_tool` (src/server.py lines 185-251), with the routed action
invocation abstracted as `exec`: first the lazy-initialization guard runs,
then the name is routed; an unknown name raises
`ValueError(f"Unknown tool: {name}")`.  Any exception (from initialization,
routing, or the action) is caught by the single `except Exception` handler
and turned into `format_error_response(str(e), name, arguments)`. -/
def handle_call_tool (startEnv : StartEnv) (exec : ToolRoute → Except PyError String)
    (st : ServerState) (name : String) : ServerState × DispatchOutcome :=
  match (ensure_started startEnv st).2.2 with
  | some e =>
    ((ensure_started startEnv st).1,
     .errorEnvelope (format_error_response (pyErrorMsg e) (some name)))
  | none =>
    match routeFor name with
    | some route =>
      match exec route with
      | .ok payload => ((ensure_started startEnv st).1, .success payload)
      | .error e =>
        ((ensure_started startEnv st).1,
         .errorEnvelope (format_error_response (pyErrorMsg e) (some name)))
    | none =>
      ((ensure_started startEnv st).1,
       .errorEnvelope (format_error_response ("Unknown tool: " ++ name) (some name)))

/-! ## Concrete environments used by witnesses and counterexamples -/

/-- A navigation environment in which every delegated operation succeeds. -/
def navEnvOk : NavEnv :=
  { getPage := .ok (), goto := fun _ => .ok "https://example.com/" "Example Domain" 200,
    waitFor := fun _ => .ok }

/-- A navigation environment in which `page.goto` raises
`PlaywrightTimeoutError`. -/
def navEnvTimedOut : NavEnv :=
  { getPage := .ok (), goto := fun _ => .timedOut "Timeout 30000ms exceeded.",
    waitFor := fun _ => .ok }

/-- A form page on which selector "a" is fillable and every other selector
never appears (its `wait_for_selector` raises a timeout naming it). -/
def formEnvAB : FormEnv :=
  { getPage := .ok (),
    field := fun sel =>
      if sel = "a" then .fillable
      else .waitTimedOut ("Timeout 5000ms exceeded waiting for selector " ++ sel),
    submitControl := none, submitActionOk := true, submitErrMsg := "",
    url := "https://example.com/form" }

/-- A screenshot environment in which no selector matches any element. -/
def shotEnvMissing : ShotEnv :=
  { querySel := fun _ => false, elementShot := fun _ => .ok "iVBORw0KGgo",
    pageShot := fun _ => .ok "iVBORw0KGgo", url := "https://example.com/" }

/-- A trivial action executor for dispatch-level statements in which the
routed action is never reached or its payload is irrelevant. -/
def execTrivial : ToolRoute → Except PyError String := fun _ => .ok ""

/-- The executor that routes `navigate_to` to the embedded action (the
payload serialization is abstracted). -/
def navExec (env : NavEnv) (url : String) (w : Option String) (t : Nat) :
    ToolRoute → Except PyError String :=
  fun r =>
    match r with
    | .navigateTo => ((navigate_to env url w t).1).map fun _ => "payload"
    | _ => .ok "payload"

/-- The server state before any tool call: both globals are `None`
(src/server.py lines 50-51). -/
def freshServer : ServerState := ⟨none, false⟩

/-! ## Helper lemmas -/

/-- With a succeeding launch, the lazy-initialization guard never
propagates an exception. -/
theorem ensure_started_no_error (st : ServerState) :
    (ensure_started ⟨true⟩ st).2.2 = none := by
  unfold ensure_started
  split <;> rfl

/-- Dispatch of an unknown tool name: the session is ensured first, then the
`ValueError` raised by the `else` arm is formatted into the envelope. -/
theorem handle_call_tool_unknown (exec : ToolRoute → Except PyError String)
    (st : ServerState) (name : String) (h : routeFor name = none) :
    handle_call_tool ⟨true⟩ exec st name =
      ((ensure_started ⟨true⟩ st).1,
       .errorEnvelope (format_error_response ("Unknown tool: " ++ name) (some name))) := by
  unfold handle_call_tool
  rw [ensure_started_no_error st, h]

/-- Dispatch of a routed action that raises: the exception is formatted into
the envelope by the top-level handler. -/
theorem handle_call_tool_action_error (exec : ToolRoute → Except PyError String)
    (st : ServerState) (name : String) (r : ToolRoute) (e : PyError)
    (hr : routeFor name = some r) (he : exec r = .error e) :
    (handle_call_tool ⟨true⟩ exec st name).2 =
      .errorEnvelope (format_error_response (pyErrorMsg e) (some name)) := by
  unfold handle_call_tool
  rw [ensure_started_no_error st, hr]
  dsimp only
  rw [he]

/-- Closed form of the per-field loop: each field is classified by its own
behaviour alone, in order, and contributes its own delegated operations. -/
theorem fillLoop_eq (env : FormEnv) (fields : List (String × String)) :
    fillLoop env fields =
      ((fields.filter fun p => (fieldFailure (env.field p.1)).isNone).map
          (fun p => ⟨p.1, p.2⟩),
       (fields.filter fun p => (fieldFailure (env.field p.1)).isSome).map
          (fun p => ⟨p.1, (fieldFailure (env.field p.1)).getD ""⟩),
       fields.flatMap fun p => fieldTrace (env.field p.1) p.1 p.2) := by
  induction fields with
  | nil => rfl
  | cons hd tl ih =>
    obtain ⟨sel, v⟩ := hd
    simp only [fillLoop, ih]
    cases h : fieldFailure (env.field sel) <;>
      simp [List.filter_cons, List.flatMap_cons, h]

/-- Splitting a list by a boolean predicate preserves total length. -/
theorem length_filter_not_aux {α : Type} (p : α → Bool) (l : List α) :
    (l.filter p).length + (l.filter fun a => !(p a)).length = l.length := by
  induction l with
  | nil => rfl
  | cons hd tl ih =>
    by_cases h : p hd = true <;> simp [List.filter_cons, h] <;> omega

/-- `Option.isSome` is the negation of `Option.isNone`. -/
theorem isSome_eq_not_isNone {α : Type} (o : Option α) : o.isSome = !o.isNone := by
  cases o <;> rfl

/-- The counts carried by any result dict `fill_form` returns come from the
per-field loop, whatever the submission path did. -/
theorem fill_form_result_counts (env : FormEnv) (fields : List (String × String))
    (submit : Bool) (r : FillResult) (hp : env.getPage = .ok ())
    (hr : (fill_form env fields submit).1 = .result r) :
    r.filled_count = (fillLoop env fields).1.length
      ∧ r.failed_count = (fillLoop env fields).2.1.length
      ∧ r.success = decide (0 < (fillLoop env fields).1.length) := by
  unfold fill_form at hr
  rw [hp] at hr
  by_cases hs : (submit && !(fillLoop env fields).1.isEmpty) = true
  · simp only [hs, if_true] at hr
    cases hc : env.submitControl <;> rw [hc] at hr <;>
      by_cases ha : env.submitActionOk = true <;>
        simp only [ha, if_true, if_false, Bool.false_eq_true] at hr <;>
          · cases hr
            exact ⟨rfl, rfl, rfl⟩
  · simp only [hs, if_false, Bool.false_eq_true] at hr
    cases hr
    exact ⟨rfl, rfl, rfl⟩

/-! ## Claim theorems -/

/-- Claim C1, counterexample: on a fresh session, `tools/call` with the
unknown name "bogus" does return the uniform error envelope with
`isError: true`, but the session state IS initialized by the call — the
lazy-initialization guard of `handle_call_tool` runs before the tool name is
validated, so the resulting server state holds a fully started browser
manager and differs from the fresh state. -/
theorem unknown_tool_touches_session :
    handle_call_tool ⟨true⟩ execTrivial freshServer "bogus" =
        (⟨some ⟨true, true, true, true⟩, true⟩,
         .errorEnvelope ⟨[⟨"text", "Error in tool \x27bogus\x27: Unknown tool: bogus"⟩], true⟩)
      ∧ (⟨some ⟨true, true, true, true⟩, true⟩ : ServerState) ≠ freshServer := by
  constructor
  · rfl
  · decide

/-- Claim C1 (amended): for every tool name without a dispatch route,
`tools/call` returns the uniform error envelope with `isError: true` built
from the "Unknown tool" message; however session initialization happens
before name validation, so on a fresh session even an unknown-tool call
initializes the browser manager (and the call makes no further use of the
session beyond that guard). -/
theorem unknown_tool_envelope_after_init (exec : ToolRoute → Except PyError String)
    (st : ServerState) (name : String) (h : routeFor name = none) :
    (handle_call_tool ⟨true⟩ exec st name).2 =
        .errorEnvelope (format_error_response ("Unknown tool: " ++ name) (some name))
      ∧ (format_error_response ("Unknown tool: " ++ name) (some name)).isError = true
      ∧ (handle_call_tool ⟨true⟩ exec st name).1 = (ensure_started ⟨true⟩ st).1
      ∧ (st.browser_manager = none →
          (handle_call_tool ⟨true⟩ exec st name).1.browser_manager =
            some ⟨true, true, true, true⟩) := by
  rw [handle_call_tool_unknown exec st name h]
  refine ⟨rfl, rfl, rfl, fun hm => ?_⟩
  unfold ensure_started
  rw [if_pos (Or.inl hm)]
  rfl

/-- Claim C1 witness: the amended statement at the unknown name "restart"
on an already-initialized session. -/
theorem unknown_tool_envelope_after_init_witness :
    (handle_call_tool ⟨true⟩ execTrivial ⟨some ⟨true, true, true, true⟩, true⟩ "restart").2 =
      .errorEnvelope (format_error_response ("Unknown tool: " ++ "restart") (some "restart")) :=
  (unknown_tool_envelope_after_init execTrivial ⟨some ⟨true, true, true, true⟩, true⟩
    "restart" rfl).1

/-- Claim C2, counterexample: with all four handles set and a page whose
delegated close raises, `cleanup` attempts only the page close: the context
close (and everything after it) is never attempted, because all four steps
sit in one `try/except` block, and every handle — the page included — stays
set. -/
theorem cleanup_failure_skips_later_steps :
    BrowserManager.cleanup ⟨true, false, false, false⟩ ⟨true, true, true, true⟩ =
        (⟨true, true, true, true⟩, [BrowserManager.Step.closePage])
      ∧ BrowserManager.Step.closeContext ∉
          (BrowserManager.cleanup ⟨true, false, false, false⟩ ⟨true, true, true, true⟩).2 := by
  decide

/-- Claim C2 (amended): `cleanup` attempts teardown in the order page,
context, browser, engine process, never raises, and is a no-op on an
already-clean session; but the four steps share a single exception guard, so
an exception in one step aborts the remaining steps (the failing handle and
all later ones are left untouched) instead of letting them still be
attempted.  Stated over every combination of present handles and failing
delegated closes. -/
theorem cleanup_order_swallow_abort (pf cf bf sf pl b c p : Bool) :
    List.Sublist (BrowserManager.cleanup ⟨pf, cf, bf, sf⟩ ⟨pl, b, c, p⟩).2
        [BrowserManager.Step.closePage, BrowserManager.Step.closeContext,
         BrowserManager.Step.closeBrowser, BrowserManager.Step.stopPlaywright]
      ∧ (BrowserManager.cleanup ⟨false, false, false, false⟩ ⟨pl, b, c, p⟩).1 =
          ⟨false, false, false, false⟩
      ∧ BrowserManager.cleanup ⟨pf, cf, bf, sf⟩ ⟨false, false, false, false⟩ =
          (⟨false, false, false, false⟩, [])
      ∧ (p = true → pf = true →
          BrowserManager.cleanup ⟨pf, cf, bf, sf⟩ ⟨pl, b, c, p⟩ =
            (⟨pl, b, c, p⟩, [BrowserManager.Step.closePage])) := by
  revert pf cf bf sf pl b c p
  decide

/-- Claim C2 witness: the amended statement at a concrete failing
configuration — context and page set, page close failing: cleanup stops
after the page close and leaves the state unchanged. -/
theorem cleanup_order_swallow_abort_witness :
    BrowserManager.cleanup ⟨true, false, false, false⟩ ⟨false, false, true, true⟩ =
      (⟨false, false, true, true⟩, [BrowserManager.Step.closePage]) :=
  (cleanup_order_swallow_abort true false false false false false true true).2.2.2 rfl rfl

/-- Claim C3, counterexample: when the delegated `page.goto` raises a
timeout, `navigate_to` does not return a failure payload — it re-raises the
timeout as `RuntimeError("Navigation timeout after 30s: ...")`, an exception
that crosses the action boundary toward Dispatch. -/
theorem navigate_timeout_escapes_action :
    navigate_to navEnvTimedOut "https://example.com" none 30 =
      (.error (.runtimeError "Navigation timeout after 30s: Timeout 30000ms exceeded."),
       [.getPage, .goto "https://example.com"]) := by
  decide

/-- Claim C3 (amended): a delegated timeout in `navigate_to` is wrapped as
`RuntimeError` whose message names the elapsed bound and the operation
("Navigation timeout after <t>s: ...") and is re-raised out of the action;
it is the last-resort `except` handler of Dispatch that converts it into
the uniform error envelope, so the part of the claim saying caught at the
Action boundary, never an exception at the Dispatch boundary, is false for
`navigate_to`. -/
theorem navigate_timeout_wrapped_at_dispatch (env : NavEnv) (url : String)
    (w : Option String) (t : Nat) (e : String) (st : ServerState)
    (hv : is_valid_url url = true) (hp : env.getPage = .ok ())
    (hg : env.goto url = .timedOut e) :
    (navigate_to env url w t).1 =
        .error (.runtimeError ("Navigation timeout after " ++ toString t ++ "s: " ++ e))
      ∧ (handle_call_tool ⟨true⟩ (navExec env url w t) st "navigate_to").2 =
          .errorEnvelope ⟨[⟨"text", "Error in tool \x27navigate_to\x27: " ++
            ("Navigation timeout after " ++ toString t ++ "s: " ++ e)⟩], true⟩ := by
  have h1 : (navigate_to env url w t).1 =
      .error (.runtimeError ("Navigation timeout after " ++ toString t ++ "s: " ++ e)) := by
    unfold navigate_to
    rw [hv, hp, hg]
    rfl
  refine ⟨h1, ?_⟩
  have h2 : navExec env url w t .navigateTo =
      .error (.runtimeError ("Navigation timeout after " ++ toString t ++ "s: " ++ e)) := by
    unfold navExec
    rw [h1]
    rfl
  rw [handle_call_tool_action_error (navExec env url w t) st "navigate_to" .navigateTo _
    rfl h2]
  rfl

/-- Claim C3 witness: the amended statement on a concrete timing-out
navigation from a fresh session. -/
theorem navigate_timeout_wrapped_at_dispatch_witness :
    (navigate_to navEnvTimedOut "https://example.com" none 30).1 =
      .error (.runtimeError ("Navigation timeout after " ++ toString 30 ++ "s: " ++
        "Timeout 30000ms exceeded.")) :=
  (navigate_timeout_wrapped_at_dispatch navEnvTimedOut "https://example.com" none 30
    "Timeout 30000ms exceeded." freshServer (by decide) rfl rfl).1

/-- Claim C4, counterexample: starting from a fresh manager, the first
`start()` succeeds and sets all four handles; calling `start()` a second
time is not a no-op — it raises `RuntimeError("Browser is already
running")`. -/
theorem start_twice_raises :
    BrowserManager.start ⟨true⟩ ⟨false, false, false, false⟩ = .ok ⟨true, true, true, true⟩
      ∧ BrowserManager.start ⟨true⟩ ⟨true, true, true, true⟩ =
          .error (.runtimeError "Browser is already running") := by
  decide

/-- Claim C4 (amended): the dispatch-level lazy initialization (initialize
only when the manager global is absent) is idempotent — after one
initialization a further ensure performs zero additional engine/context/page
creations and leaves the state unchanged, and a fresh session performs
exactly one creation; but `BrowserManager.start` itself is not idempotent:
called on an already-started manager it raises `RuntimeError("Browser is
already running")` rather than being a no-op. -/
theorem lazy_init_idempotent_start_raises (s : ServerState) (env : StartEnv)
    (m : BMState) (hm : m.playwright = true) :
    ensure_started ⟨true⟩ ((ensure_started ⟨true⟩ s).1) = ((ensure_started ⟨true⟩ s).1, 0, none)
      ∧ (ensure_started ⟨true⟩ freshServer).2.1 = 1
      ∧ BrowserManager.start env m = .error (.runtimeError "Browser is already running") := by
  refine ⟨?_, rfl, ?_⟩
  · by_cases hc : s.browser_manager = none ∨ s.browser_actions = false
    · unfold ensure_started
      rw [if_pos hc]
      rfl
    · unfold ensure_started
      rw [if_neg hc, if_neg hc]
  · unfold BrowserManager.start
    rw [hm]
    rfl

/-- Claim C4 witness: the amended statement starting from a fresh session
and an already-started manager. -/
theorem lazy_init_idempotent_start_raises_witness :
    ensure_started ⟨true⟩ ((ensure_started ⟨true⟩ freshServer).1) =
      ((ensure_started ⟨true⟩ freshServer).1, 0, none) :=
  (lazy_init_idempotent_start_raises freshServer ⟨true⟩ ⟨true, true, true, true⟩ rfl).1

/-- Claim C5: `navigate_to` accepts a url exactly when the source check
`is_valid_url` passes, which coincides with the spec predicate
(scheme in {http, https, ftp, ftps}, non-empty host containing a dot or
equal to "localhost"); a failing url is rejected with `ValueError` before
any browser interaction (no page acquired, nothing attempted), and a
passing url proceeds into the browser (page acquisition is the first
delegated operation). -/
theorem navigate_url_validation_gate (env : NavEnv) (url : String)
    (w : Option String) (t : Nat) :
    is_valid_url url = urlSpecAccepts url
      ∧ (is_valid_url url = false →
          navigate_to env url w t =
            (.error (.valueError ("Invalid URL provided: " ++ url)), []))
      ∧ (is_valid_url url = true →
          (navigate_to env url w t).2.head? = some .getPage) := by
  refine ⟨?_, ?_, ?_⟩
  · by_cases h : url = ""
    · subst h
      decide
    · unfold is_valid_url urlSpecAccepts
      rw [if_neg h]
  · intro hf
    unfold navigate_to
    rw [hf]
    simp
  · intro ht
    unfold navigate_to
    rw [ht]
    cases env.getPage with
    | error e => rfl
    | ok u =>
      cases env.goto url with
      | ok f ti s2 =>
        cases w with
        | none => rfl
        | some sel => cases hw : env.waitFor sel <;> simp [hw]
      | noResponse => rfl
      | timedOut m => rfl
      | failed m => rfl

/-- Claim C5 witness: "notaurl" is rejected before any browser interaction;
"https://example.com" passes and reaches the page. -/
theorem navigate_url_validation_gate_witness :
    navigate_to navEnvOk "notaurl" none 30 =
        (.error (.valueError ("Invalid URL provided: " ++ "notaurl")), [])
      ∧ (navigate_to navEnvOk "https://example.com" none 30).2.head? = some .getPage :=
  ⟨(navigate_url_validation_gate navEnvOk "notaurl" none 30).2.1 (by decide),
   (navigate_url_validation_gate navEnvOk "https://example.com" none 30).2.2 (by decide)⟩

/-- Claim C6: the fields of `fill_form` are processed independently — the
outcome and delegated operations of each field depend only on its own
behaviour, so no failure aborts the rest; each successfully filled field
is cleared before its value is set (wait, then clear, then fill); and on the
concrete page where "a" exists and "b" does not,
`fill_form({a: "1", b: "2"}, submit=false)` yields `filled_count = 1`,
`failed_count = 1`, with "b" in the failed list carrying its wait-timeout
reason. -/
theorem fill_form_fields_independent (env : FormEnv) (fields : List (String × String))
    (hp : env.getPage = .ok ()) :
    fill_form env fields false =
        (.result
          { success :=
              decide (0 < (fields.filter fun q => (fieldFailure (env.field q.1)).isNone).length),
            filled_count :=
              (fields.filter fun q => (fieldFailure (env.field q.1)).isNone).length,
            failed_count :=
              (fields.filter fun q => (fieldFailure (env.field q.1)).isSome).length,
            filled_fields :=
              (fields.filter fun q => (fieldFailure (env.field q.1)).isNone).map
                fun q => ⟨q.1, q.2⟩,
            failed_fields :=
              (fields.filter fun q => (fieldFailure (env.field q.1)).isSome).map
                fun q => ⟨q.1, (fieldFailure (env.field q.1)).getD ""⟩,
            submitted := none, final_url := none, submit_error := none },
         fields.flatMap fun q => fieldTrace (env.field q.1) q.1 q.2)
      ∧ (∀ sel v, fieldTrace .fillable sel v = [.waitSel sel, .clearField sel, .fillField sel v])
      ∧ fill_form formEnvAB [("a", "1"), ("b", "2")] false =
          (.result
            { success := true, filled_count := 1, failed_count := 1,
              filled_fields := [⟨"a", "1"⟩],
              failed_fields := [⟨"b", "Timeout 5000ms exceeded waiting for selector b"⟩],
              submitted := none, final_url := none, submit_error := none },
           [.waitSel "a", .clearField "a", .fillField "a" "1", .waitSel "b"]) := by
  refine ⟨?_, fun sel v => rfl, by decide⟩
  unfold fill_form
  rw [hp]
  dsimp only
  rw [fillLoop_eq]
  simp [List.length_map]

/-- Claim C6 witness: the independence statement applied to the concrete
two-field page with "b" missing. -/
theorem fill_form_fields_independent_witness :
    fill_form formEnvAB [("a", "1"), ("b", "2")] false =
      (.result
        { success := true, filled_count := 1, failed_count := 1,
          filled_fields := [⟨"a", "1"⟩],
          failed_fields := [⟨"b", "Timeout 5000ms exceeded waiting for selector b"⟩],
          submitted := none, final_url := none, submit_error := none },
       [.waitSel "a", .clearField "a", .fillField "a" "1", .waitSel "b"]) :=
  (fill_form_fields_independent formEnvAB [("a", "1"), ("b", "2")] rfl).2.2

/-- Claim C7: the selector and full-page capture modes of `take_screenshot`
are mutually exclusive with the selector taking precedence — when a selector
is given the result is identical whatever `full_page` is, and a found
element yields an "element" capture; and a selector matching no element
yields a structured failure payload that names the selector and carries no
base64 image data. -/
theorem take_screenshot_selector_precedence (env : ShotEnv) (full_page : Bool) (s : String) :
    take_screenshot env full_page (some s) = take_screenshot env false (some s)
      ∧ (∀ bytes, env.querySel s = true → env.elementShot s = .ok bytes →
          (take_screenshot env full_page (some s)).type = some "element"
            ∧ (take_screenshot env full_page (some s)).success = true)
      ∧ (env.querySel s = false →
          take_screenshot env full_page (some s) =
            { success := false, screenshot := none, format := none, type := none,
              url := none, selector := some s,
              error := some ("Screenshot failed: Element not found for screenshot: " ++ s) }) := by
  refine ⟨rfl, fun bytes hq he => ?_, fun hq => ?_⟩
  · simp only [take_screenshot]
    rw [hq, he]
    exact ⟨rfl, rfl⟩
  · simp only [take_screenshot]
    rw [hq]
    rfl

/-- Claim C7 witness: `take_screenshot({selector: "#missing"})` on a page
without that element returns the structured failure naming the selector,
with no image data, even with the full-page flag set. -/
theorem take_screenshot_selector_precedence_witness :
    take_screenshot shotEnvMissing true (some "#missing") =
      { success := false, screenshot := none, format := none, type := none, url := none,
        selector := some "#missing",
        error := some ("Screenshot failed: Element not found for screenshot: " ++ "#missing") } :=
  (take_screenshot_selector_precedence shotEnvMissing true "#missing").2.2 rfl

/-- Claim C8, counterexample: for the empty tool name — which the Python
test `if tool_name:` treats as falsy — the envelope produced by Dispatch
keeps the content/isError structure but its text is the bare message
without the Error-in-tool prefix, so the claimed exact shape fails at the
empty name. -/
theorem empty_name_envelope_shape :
    (handle_call_tool ⟨true⟩ execTrivial freshServer "").2 =
        .errorEnvelope ⟨[⟨"text", "Unknown tool: "⟩], true⟩
      ∧ ("Unknown tool: " : String) ≠ "Error in tool \x27\x27: Unknown tool: " :=
  ⟨rfl, by decide⟩

/-- Claim C8 (amended): for every non-empty tool name and every failure
message the envelope is exactly a one-element content list whose single
text item reads Error in tool <name>: <message>, with isError true —
and this is what Dispatch returns for an unknown non-empty
name; for the empty name the envelope has the same structure but its text is
the bare message. -/
theorem error_envelope_shape_nonempty_name (name msg : String) (h : name ≠ "") :
    format_error_response msg (some name) =
        ⟨[⟨"text", "Error in tool \x27" ++ name ++ "\x27: " ++ msg⟩], true⟩
      ∧ format_error_response msg (some "") = ⟨[⟨"text", msg⟩], true⟩
      ∧ ∀ (exec : ToolRoute → Except PyError String) (st : ServerState),
          routeFor name = none →
            (handle_call_tool ⟨true⟩ exec st name).2 =
              .errorEnvelope ⟨[⟨"text",
                "Error in tool \x27" ++ name ++ "\x27: " ++ ("Unknown tool: " ++ name)⟩], true⟩ := by
  have hf : ∀ m : String, format_error_response m (some name) =
      ⟨[⟨"text", "Error in tool \x27" ++ name ++ "\x27: " ++ m⟩], true⟩ := by
    intro m
    simp only [format_error_response, format_error_text]
    rw [if_neg h]
  refine ⟨hf msg, rfl, fun exec st hr => ?_⟩
  rw [handle_call_tool_unknown exec st name hr]
  dsimp only
  rw [hf ("Unknown tool: " ++ name)]

/-- Claim C8 witness: the amended shape at the name "navigate_to" and a
concrete message. -/
theorem error_envelope_shape_nonempty_name_witness :
    format_error_response "Navigation failed: no response" (some "navigate_to") =
      ⟨[⟨"text", "Error in tool \x27navigate_to\x27: " ++ "Navigation failed: no response"⟩],
       true⟩ :=
  (error_envelope_shape_nonempty_name "navigate_to" "Navigation failed: no response"
    (by decide)).1

/-- Claim C9: the set of names listed by `tools/list` and the set of names
routed by `tools/call` coincide — a name is in the registry exactly when
`routeFor` has a route for it — and both are exactly the six tools. -/
theorem registry_dispatch_correspondence :
    (∀ name : String,
        name ∈ handle_list_tools.map ToolDescriptor.name ↔ (routeFor name).isSome = true)
      ∧ handle_list_tools.map ToolDescriptor.name =
          ["navigate_to", "get_page_content", "click_element", "fill_form",
           "take_screenshot", "execute_javascript"] := by
  refine ⟨fun name => ⟨?_, ?_⟩, rfl⟩
  · intro hmem
    simp only [handle_list_tools, List.map_cons, List.map_nil, List.mem_cons,
      List.not_mem_nil, or_false] at hmem
    rcases hmem with h | h | h | h | h | h <;> subst h <;> rfl
  · intro hs
    unfold routeFor at hs
    split_ifs at hs with h1 h2 h3 h4 h5 h6
    · subst h1; decide
    · subst h2; decide
    · subst h3; decide
    · subst h4; decide
    · subst h5; decide
    · subst h6; decide
    · simp at hs

/-- Claim C10: whenever the per-field loop of `fill_form` completes (page
acquisition succeeded) and a result dict is returned, `filled_count +
failed_count` equals the number of fields and the success flag is true
exactly when at least one field was filled; the empty mapping returns
`success = false` with both counts zero and attempts no submission. -/
theorem fill_form_count_invariant (env : FormEnv) (fields : List (String × String))
    (submit : Bool) (r : FillResult) (hp : env.getPage = .ok ())
    (hr : (fill_form env fields submit).1 = .result r) :
    (r.filled_count + r.failed_count = fields.length
      ∧ (r.success = true ↔ 0 < r.filled_count))
      ∧ fill_form env [] submit = (.result ⟨false, 0, 0, [], [], none, none, none⟩, []) := by
  obtain ⟨h1, h2, h3⟩ := fill_form_result_counts env fields submit r hp hr
  refine ⟨⟨?_, ?_⟩, ?_⟩
  · rw [h1, h2, fillLoop_eq]
    simp only [List.length_map]
    have hiso : (fun q : String × String => (fieldFailure (env.field q.1)).isSome)
        = fun q => !((fieldFailure (env.field q.1)).isNone) := by
      funext q
      exact isSome_eq_not_isNone _
    rw [hiso]
    exact length_filter_not_aux _ fields
  · rw [h3, h1]
    exact decide_eq_true_iff
  · unfold fill_form
    rw [hp]
    cases submit <;> rfl

/-- Claim C10 witness: the count invariant at the concrete two-field call
(one filled, one failed) and the empty-mapping result. -/
theorem fill_form_count_invariant_witness :
    fill_form formEnvAB [] false = (.result ⟨false, 0, 0, [], [], none, none, none⟩, []) :=
  (fill_form_count_invariant formEnvAB [("a", "1"), ("b", "2")] false
    ⟨true, 1, 1, [⟨"a", "1"⟩], [⟨"b", "Timeout 5000ms exceeded waiting for selector b"⟩],
     none, none, none⟩ rfl (by decide)).2

end BrowserMCP
